import Mathlib

/-!
# Verification of the Bytebase pipeline store service

A shallow embedding of the `store.PipelineService` transactional CRUD code
(`CreatePipeline`, `FindPipeline`, `FindPipelineList`, `PatchPipeline` and
their lower-case SQL helpers) together with the `api.ProjectMemberRaw`
conversion `ToProjectMember`.

Modelling conventions:
* Go `int`/`int64` values are modelled as `Int` (no arithmetic overflows
  occur in the embedded code paths).
* `api.PipelineStatus` is a Go string type; it is modelled as `String`
  (the code inserts the literal `'OPEN'` and casts patch values through
  `api.PipelineStatus(*v)`, which is the identity on strings).
* The relational store is modelled as a list of pipeline rows plus the
  store-assigned counters (`nextId` for the serial `id` column, `clock`
  for the `created_ts`/`updated_ts` defaults).  SQL statements become
  pure functions on this state; a transaction's mutations take effect
  only when the `Commit` point is reached, matching the deferred
  `tx.PTx.Rollback()` discipline of the Go code.
* Fallible store/cache round trips (`BeginTx`, `QueryContext`, `Commit`,
  `UpsertCache`, `FindCache`) are driven by a fault environment `Env` of
  booleans saying which round trips succeed in the modelled execution.
* Each operation additionally records a trace of externally visible
  events (transaction begin, SQL issued, commit, rollback, cache probes
  and writes) so that ordering claims can be stated.
-/

namespace Bytebase

/-- Raw pipeline row, mirroring `api.PipelineRaw`: the columns
`id, creator_id, created_ts, updater_id, updated_ts, name, status`
scanned by the store code. -/
structure PipelineRaw where
  ID : Int
  CreatorID : Int
  CreatedTs : Int
  UpdaterID : Int
  UpdatedTs : Int
  Name : String
  Status : String
deriving DecidableEq, Repr

/-- Mirrors `api.PipelineCreate` as used by `createPipeline`:
the insert binds `create.CreatorID` (twice) and `create.Name`. -/
structure PipelineCreate where
  CreatorID : Int
  Name : String
deriving DecidableEq, Repr

/-- Mirrors `api.PipelineFind` as used by `findPipelineList`:
optional `ID` and `Status` filters. -/
structure PipelineFind where
  ID : Option Int
  Status : Option String
deriving DecidableEq, Repr

/-- Mirrors `api.PipelinePatch` as used by `patchPipeline`:
target `ID`, unconditional `UpdaterID`, optional new `Status`. -/
structure PipelinePatch where
  ID : Int
  UpdaterID : Int
  Status : Option String
deriving DecidableEq, Repr

/-- The relational store state for the `pipeline` table: the rows in
store order, the next value of the serial `id` column, and the clock
used for the `created_ts` / `updated_ts` column defaults. -/
structure DBState where
  nextId : Int
  clock : Int
  rows : List PipelineRaw
deriving DecidableEq, Repr

/-- Error values produced by the service, mirroring `common.Error`
codes and the `FormatError` wrapping of driver errors:
`conflict` carries the actual and expected match counts and the filter
(`"found %d pipelines with filter %+v, expect 1"`), `notFound` carries
the missing ID (`"pipeline ID not found: %d"`). -/
inductive PipelineError where
  | storeError (msg : String)
  | conflict (actual expect : Nat) (filter : PipelineFind)
  | notFound (id : Int)
  | cacheError (msg : String)
deriving DecidableEq, Repr

/-- Rendering of `api.PipelineFind` used inside the conflict message
(Go formats the filter with `%+v`). -/
def pipelineFindString (f : PipelineFind) : String :=
  "&\x7bID:" ++ toString (repr f.ID) ++ " Status:" ++
    toString (repr f.Status) ++ "\x7d"

/-- The message carried by each error value, following the
`fmt.Errorf` format strings of the source. -/
def PipelineError.message : PipelineError → String
  | .storeError m => m
  | .conflict actual expect filter =>
      "found " ++ toString actual ++ " pipelines with filter " ++
        pipelineFindString filter ++ ", expect " ++ toString expect
  | .notFound id => "pipeline ID not found: " ++ toString id
  | .cacheError m => m

/-- Modelled from the spec: the `api.CacheService` implementation
(`UpsertCache` / `FindCache`) is not part of the sources; per the spec
it is an in-process map from `(entityKind, id)` to the entity snapshot,
with `Put`-style upsert and exact point lookup.  Only the
`PipelineCache` kind is used here, so the kind is dropped. -/
def Cache := List (Int × PipelineRaw)
deriving DecidableEq, Repr

/-- Modelled from the spec: cache point lookup `FindCache(kind, id, &out)`;
returns the snapshot stored under `id`, if any. -/
def findCache (c : Cache) (id : Int) : Option PipelineRaw :=
  (c.find? (fun e => e.1 = id)).map (fun e => e.2)

/-- Modelled from the spec: cache upsert `UpsertCache(kind, id, entity)`;
the new snapshot shadows any previous entry under the same id. -/
def upsertCache (c : Cache) (id : Int) (p : PipelineRaw) : Cache :=
  (id, p) :: c.filter (fun e => e.1 ≠ id)

/-- Externally visible events of one service operation, in order. -/
inductive Event where
  | beginTx
  | sqlInsert
  | sqlSelect
  | sqlUpdate
  | commit
  | rollback
  | cacheFind (id : Int)
  | cacheUpsert (id : Int)
  | cacheFail
deriving DecidableEq, Repr

/-- Fault environment: which store/cache round trips succeed in the
modelled execution.  `beginTxOk` is `BeginTx`, `queryOk` the
`QueryContext`/`Scan` round trip inside the transaction, `commitOk` the
`Commit`, `upsertOk` the `UpsertCache` call, `findCacheOk` the
`FindCache` call. -/
structure Env where
  beginTxOk : Bool := true
  queryOk : Bool := true
  commitOk : Bool := true
  upsertOk : Bool := true
  findCacheOk : Bool := true
deriving DecidableEq, Repr

/-- The all-succeed environment: every store and cache round trip
completes normally. -/
def envOK : Env := {}

/-- Result of one service operation: the Go return value, the store
and cache states after the operation, and the event trace. -/
structure OpResult (α : Type) where
  res : Except PipelineError α
  db : DBState
  cache : Cache
  trace : List Event
deriving Repr

/-- `createPipeline`: the `INSERT INTO pipeline (creator_id, updater_id,
name, status) VALUES ($1, $2, $3, 'OPEN') RETURNING ...` statement.
Binds `create.CreatorID` for both `creator_id` and `updater_id`; the
store assigns `id` from the serial counter and the timestamp defaults;
the `RETURNING` clause reads the inserted row back. -/
def createPipeline (db : DBState) (create : PipelineCreate) :
    PipelineRaw × DBState :=
  let row : PipelineRaw :=
    { ID := db.nextId
      CreatorID := create.CreatorID
      CreatedTs := db.clock
      UpdaterID := create.CreatorID
      UpdatedTs := db.clock
      Name := create.Name
      Status := "OPEN" }
  (row, { db with nextId := db.nextId + 1, rows := db.rows ++ [row] })

/-- The WHERE clause built by `findPipelineList`:
`1 = 1`, plus `id = $n` when `find.ID` is set, plus `status = $n` when
`find.Status` is set (conjunction of the provided filters). -/
def matchesFind (find : PipelineFind) (r : PipelineRaw) : Bool :=
  (match find.ID with
   | some i => r.ID = i
   | none => true) &&
  (match find.Status with
   | some s => r.Status = s
   | none => true)

/-- `findPipelineList` (inner SQL): `SELECT ... FROM pipeline WHERE ...`
returning the matching rows in store order. -/
def findPipelineList (db : DBState) (find : PipelineFind) :
    List PipelineRaw :=
  db.rows.filter (matchesFind find)

/-- The SET list built by `patchPipeline` applied to one row:
`updater_id = $1` unconditionally, plus `status = $n` when
`patch.Status` is non-nil; every other column is not in the SET list. -/
def applyPatchPipeline (patch : PipelinePatch) (r : PipelineRaw) :
    PipelineRaw :=
  let r1 := { r with UpdaterID := patch.UpdaterID }
  match patch.Status with
  | some s => { r1 with Status := s }
  | none => r1

/-- The effect of the UPDATE's `WHERE id = $n` clause on one stored row:
a row whose `id` matches is rewritten by the SET list, any other row is
untouched. -/
def patchRow (patch : PipelinePatch) (r : PipelineRaw) : PipelineRaw :=
  if r.ID = patch.ID then applyPatchPipeline patch r else r

/-- `patchPipeline`: `UPDATE pipeline SET ... WHERE id = $n RETURNING ...`.
Every row whose `id` equals `patch.ID` is updated; `row.Next()` reads the
first returned row; if the UPDATE matched no row, returns the
`common.NotFound` error `"pipeline ID not found: %d"`. -/
def patchPipeline (db : DBState) (patch : PipelinePatch) :
    Except PipelineError PipelineRaw × DBState :=
  match (db.rows.map (patchRow patch)).filter (fun r => r.ID = patch.ID) with
  | [] => (.error (.notFound patch.ID),
      { db with rows := db.rows.map (patchRow patch) })
  | r :: _ => (.ok r, { db with rows := db.rows.map (patchRow patch) })

/-- `CreatePipeline`: begin transaction, run the insert, commit, then
upsert the fresh row into the cache.  The deferred rollback runs on
every exit path after a successful `BeginTx` (a no-op after commit).
Transaction mutations take effect only at the commit point. -/
def CreatePipeline (env : Env) (db : DBState) (cache : Cache)
    (create : PipelineCreate) : OpResult PipelineRaw :=
  if env.beginTxOk then
    if env.queryOk then
      let (row, db') := createPipeline db create
      if env.commitOk then
        if env.upsertOk then
          { res := .ok row
            db := db'
            cache := upsertCache cache row.ID row
            trace := [.beginTx, .sqlInsert, .commit, .cacheUpsert row.ID,
              .rollback] }
        else
          { res := .error (.cacheError "upsert cache failed")
            db := db'
            cache := cache
            trace := [.beginTx, .sqlInsert, .commit, .cacheFail, .rollback] }
      else
        { res := .error (.storeError "commit failed")
          db := db
          cache := cache
          trace := [.beginTx, .sqlInsert, .rollback] }
    else
      { res := .error (.storeError "query failed")
        db := db
        cache := cache
        trace := [.beginTx, .sqlInsert, .rollback] }
  else
    { res := .error (.storeError "begin tx failed")
      db := db
      cache := cache
      trace := [] }

/-- `PatchPipeline`: begin transaction, run the update (which itself can
fail with `NotFound`), commit, then upsert the returned row into the
cache.  On any pre-commit error the deferred rollback discards the
transaction's mutations. -/
def PatchPipeline (env : Env) (db : DBState) (cache : Cache)
    (patch : PipelinePatch) : OpResult PipelineRaw :=
  if env.beginTxOk then
    if env.queryOk then
      match patchPipeline db patch with
      | (.error e, _) =>
        { res := .error e
          db := db
          cache := cache
          trace := [.beginTx, .sqlUpdate, .rollback] }
      | (.ok row, db') =>
        if env.commitOk then
          if env.upsertOk then
            { res := .ok row
              db := db'
              cache := upsertCache cache row.ID row
              trace := [.beginTx, .sqlUpdate, .commit, .cacheUpsert row.ID,
                .rollback] }
          else
            { res := .error (.cacheError "upsert cache failed")
              db := db'
              cache := cache
              trace := [.beginTx, .sqlUpdate, .commit, .cacheFail,
                .rollback] }
        else
          { res := .error (.storeError "commit failed")
            db := db
            cache := cache
            trace := [.beginTx, .sqlUpdate, .rollback] }
    else
      { res := .error (.storeError "query failed")
        db := db
        cache := cache
        trace := [.beginTx, .sqlUpdate, .rollback] }
  else
    { res := .error (.storeError "begin tx failed")
      db := db
      cache := cache
      trace := [] }

/-- The store round trip of `FindPipeline` after the cache has been
consulted (or skipped): begin a transaction, run `findPipelineList`,
apply the result-count contract, upsert a unique match into the cache.
`pre` is the trace prefix produced by the cache probe.  The read-only
transaction is released by the deferred rollback; `FindPipeline` never
commits. -/
def findPipelineStore (env : Env) (db : DBState) (cache : Cache)
    (find : PipelineFind) (pre : List Event) :
    OpResult (Option PipelineRaw) :=
  if env.beginTxOk then
    if env.queryOk then
      match findPipelineList db find with
      | [] =>
        { res := .ok none
          db := db
          cache := cache
          trace := pre ++ [.beginTx, .sqlSelect, .rollback] }
      | [r] =>
        if env.upsertOk then
          { res := .ok (some r)
            db := db
            cache := upsertCache cache r.ID r
            trace := pre ++ [.beginTx, .sqlSelect, .cacheUpsert r.ID,
              .rollback] }
        else
          { res := .error (.cacheError "upsert cache failed")
            db := db
            cache := cache
            trace := pre ++ [.beginTx, .sqlSelect, .cacheFail, .rollback] }
      | _ :: _ :: _ =>
        { res := .error
            (.conflict (findPipelineList db find).length 1 find)
          db := db
          cache := cache
          trace := pre ++ [.beginTx, .sqlSelect, .rollback] }
    else
      { res := .error (.storeError "query failed")
        db := db
        cache := cache
        trace := pre ++ [.beginTx, .sqlSelect, .rollback] }
  else
    { res := .error (.storeError "begin tx failed")
      db := db
      cache := cache
      trace := pre }

/-- `FindPipeline`: when `find.ID` is set, probe the cache first and on
a hit return the cached snapshot immediately, without opening a
transaction; otherwise (or on a miss) fall through to the store path. -/
def FindPipeline (env : Env) (db : DBState) (cache : Cache)
    (find : PipelineFind) : OpResult (Option PipelineRaw) :=
  match find.ID with
  | some i =>
    if env.findCacheOk then
      match findCache cache i with
      | some p =>
        { res := .ok (some p)
          db := db
          cache := cache
          trace := [.cacheFind i] }
      | none => findPipelineStore env db cache find [.cacheFind i]
    else
      { res := .error (.cacheError "find cache failed")
        db := db
        cache := cache
        trace := [.cacheFail] }
  | none => findPipelineStore env db cache find []

/-- Mirrors `api.ProjectMemberRaw`: the store model for a project
member.  `ProjectRoleProvider` is a Go string type, modelled as
`String`. -/
structure ProjectMemberRaw where
  ID : Int
  CreatorID : Int
  CreatedTs : Int
  UpdaterID : Int
  UpdatedTs : Int
  ProjectID : Int
  Role : String
  PrincipalID : Int
  RoleProvider : String
  Payload : String
deriving DecidableEq, Repr

/-- Mirrors `api.ProjectMember` (API message).  The relation pointer
fields `Creator`, `Updater`, `Principal` are composed later by callers
and are never assigned by `ToProjectMember` (they stay nil), so they
are omitted here. -/
structure ProjectMember where
  ID : Int
  CreatorID : Int
  CreatedTs : Int
  UpdaterID : Int
  UpdatedTs : Int
  ProjectID : Int
  Role : String
  PrincipalID : Int
  RoleProvider : String
  Payload : String
deriving DecidableEq, Repr

/-- `ToProjectMember`: creates a `ProjectMember` from the raw store
model, field by field as written in the source (note the `ProjectID`
assignment reads `raw.PrincipalID`). -/
def ProjectMemberRaw.ToProjectMember (raw : ProjectMemberRaw) :
    ProjectMember :=
  { ID := raw.ID
    CreatorID := raw.CreatorID
    CreatedTs := raw.CreatedTs
    UpdaterID := raw.UpdaterID
    UpdatedTs := raw.UpdatedTs
    ProjectID := raw.PrincipalID
    Role := raw.Role
    PrincipalID := raw.PrincipalID
    RoleProvider := raw.RoleProvider
    Payload := raw.Payload }

/-! ## Trace predicates and concrete fixtures -/

/-- `true` iff no `cacheUpsert` event occurs strictly before the first
`commit` event of the trace (so any cache write happens only after a
successful commit). -/
def cacheUpsertOnlyAfterCommit : List Event → Bool
  | [] => true
  | .commit :: _ => true
  | .cacheUpsert _ :: _ => false
  | _ :: t => cacheUpsertOnlyAfterCommit t

/-- A pipeline row that has already reached the terminal status DONE. -/
def rowDone : PipelineRaw :=
  { ID := 1, CreatorID := 100, CreatedTs := 1, UpdaterID := 100,
    UpdatedTs := 1, Name := "release-42", Status := "DONE" }

/-- A store state holding exactly the terminal pipeline `rowDone`. -/
def dbDone : DBState :=
  { nextId := 2
    clock := 5
    rows := [rowDone] }

/-- A store state holding two pipelines that both have status OPEN. -/
def dbTwoOpen : DBState :=
  { nextId := 3
    clock := 5
    rows := [{ ID := 1, CreatorID := 100, CreatedTs := 1, UpdaterID := 100,
               UpdatedTs := 1, Name := "a", Status := "OPEN" },
             { ID := 2, CreatorID := 100, CreatedTs := 2, UpdaterID := 100,
               UpdatedTs := 2, Name := "b", Status := "OPEN" }] }

/-- The empty cache. -/
def cacheEmpty : Cache := []

/-- A cache holding `rowDone` under its id. -/
def cacheDone : Cache := [(1, rowDone)]

/-- A patch requesting the undefined lifecycle edge DONE → OPEN on the
pipeline of `dbDone`. -/
def patchReopen : PipelinePatch :=
  { ID := 1, UpdaterID := 101, Status := some "OPEN" }

/-- A patch with no optional field set, targeting the pipeline of
`dbDone`. -/
def patchTouch : PipelinePatch :=
  { ID := 1, UpdaterID := 9, Status := none }

/-- A patch targeting an id that matches no stored row. -/
def patchMissing : PipelinePatch :=
  { ID := 42, UpdaterID := 9, Status := none }

/-- A create request. -/
def createReq : PipelineCreate :=
  { CreatorID := 7, Name := "release-43" }

/-- A find request filtering on status only. -/
def findStatusOpen : PipelineFind :=
  { ID := none, Status := some "OPEN" }

/-- A find request for a single id with no other filter. -/
def findById : PipelineFind :=
  { ID := some 1, Status := none }

/-- Environment in which the transaction commit round trip fails. -/
def envNoCommit : Env := { commitOk := false }

/-- Environment in which the cache upsert round trip fails. -/
def envNoUpsert : Env := { upsertOk := false }

/-! ## Helper lemmas -/

lemma applyPatchPipeline_ID (patch : PipelinePatch) (r : PipelineRaw) :
    (applyPatchPipeline patch r).ID = r.ID := by
  unfold applyPatchPipeline
  cases patch.Status <;> rfl

lemma applyPatchPipeline_status (patch : PipelinePatch) (r : PipelineRaw)
    (s : String) (hs : patch.Status = some s) :
    (applyPatchPipeline patch r).Status = s := by
  unfold applyPatchPipeline
  rw [hs]

lemma patchRow_ID (patch : PipelinePatch) (r : PipelineRaw) :
    (patchRow patch r).ID = r.ID := by
  unfold patchRow
  split
  · exact applyPatchPipeline_ID patch r
  · rfl

/-- Every row of the post-UPDATE table whose `id` matches the patch
target carries the requested status. -/
lemma patched_rows_status (db : DBState) (patch : PipelinePatch)
    (s : String) (hs : patch.Status = some s) :
    ∀ r ∈ db.rows.map (patchRow patch), r.ID = patch.ID → r.Status = s := by
  intro r hr hid
  rcases List.mem_map.mp hr with ⟨x, hx, hfx⟩
  by_cases h : x.ID = patch.ID
  · rw [← hfx]
    unfold patchRow
    rw [if_pos h]
    exact applyPatchPipeline_status patch x s hs
  · exfalso
    apply h
    rw [← hid, ← hfx]
    unfold patchRow
    rw [if_neg h]

/-- When some stored row matches the patch target, `patchPipeline`
returns `.ok` with a row whose `id` is the target. -/
lemma patchPipeline_found (db : DBState) (patch : PipelinePatch)
    (hex : ∃ r ∈ db.rows, r.ID = patch.ID) :
    ∃ row, (patchPipeline db patch).1 = .ok row ∧ row.ID = patch.ID ∧
      row ∈ db.rows.map (patchRow patch) := by
  rcases hex with ⟨r, hr, hid⟩
  have hmem : patchRow patch r ∈ db.rows.map (patchRow patch) :=
    List.mem_map_of_mem (patchRow patch) hr
  have hpid : (patchRow patch r).ID = patch.ID := by
    rw [patchRow_ID]; exact hid
  have hfil : patchRow patch r ∈
      (db.rows.map (patchRow patch)).filter (fun x => x.ID = patch.ID) := by
    rw [List.mem_filter]
    exact ⟨hmem, by simp [hpid]⟩
  unfold patchPipeline
  rcases hcase : (db.rows.map (patchRow patch)).filter
      (fun x => x.ID = patch.ID) with _ | ⟨a, t⟩
  · rw [hcase] at hfil
    exact absurd hfil (List.not_mem_nil _)
  · have ha : a ∈ (db.rows.map (patchRow patch)).filter
        (fun x => x.ID = patch.ID) := by
      rw [hcase]; exact List.mem_cons_self a t
    have haid : a.ID = patch.ID := by
      have := (List.mem_filter.mp ha).2
      simpa using this
    have hamem : a ∈ db.rows.map (patchRow patch) :=
      (List.mem_filter.mp ha).1
    exact ⟨a, by rw [hcase], haid, hamem⟩

/-- When no stored row matches the patch target, `patchPipeline`
returns the `NotFound` error. -/
lemma patchPipeline_not_found (db : DBState) (patch : PipelinePatch)
    (h : ∀ r ∈ db.rows, r.ID ≠ patch.ID) :
    (patchPipeline db patch).1 = .error (.notFound patch.ID) := by
  have hfil : (db.rows.map (patchRow patch)).filter
      (fun x => x.ID = patch.ID) = [] := by
    rw [List.filter_eq_nil_iff]
    intro a ha
    rcases List.mem_map.mp ha with ⟨x, hx, hfx⟩
    have : a.ID = x.ID := by rw [← hfx, patchRow_ID]
    simp [this]
    exact h x hx
  unfold patchPipeline
  rw [hfil]

/-- The store state returned by `patchPipeline` always carries the
post-UPDATE table. -/
lemma patchPipeline_rows (db : DBState) (patch : PipelinePatch) :
    (patchPipeline db patch).2 =
      { db with rows := db.rows.map (patchRow patch) } := by
  unfold patchPipeline
  split <;> rfl

/-! ## Claim theorems -/

/-- C1 (counterexample): on a store whose only pipeline is already in
the terminal status DONE, a patch requesting the undefined edge
DONE → OPEN does not fail with any error: it succeeds, the SQL UPDATE
is issued, and the store is mutated to status OPEN — refuting the claim
that such a request fails with an `InvalidTransitionError` before any
SQL is issued. -/
theorem C1_counterexample :
    (PatchPipeline envOK dbDone cacheEmpty patchReopen).res =
      .ok { ID := 1, CreatorID := 100, CreatedTs := 1, UpdaterID := 101,
            UpdatedTs := 1, Name := "release-42", Status := "OPEN" }
    ∧ Event.sqlUpdate ∈
        (PatchPipeline envOK dbDone cacheEmpty patchReopen).trace
    ∧ (PatchPipeline envOK dbDone cacheEmpty patchReopen).db.rows =
        [{ ID := 1, CreatorID := 100, CreatedTs := 1, UpdaterID := 101,
           UpdatedTs := 1, Name := "release-42", Status := "OPEN" }] := by
  refine ⟨rfl, ?_, rfl⟩
  decide

/-- C1 (amended): `PatchPipeline` performs no lifecycle-edge
validation.  Whenever the requested status is set and some stored row
matches the target id, the patch succeeds (in a fault-free execution),
the SQL UPDATE is issued, and every matching stored row afterwards
carries the requested status — regardless of the previous status, even
when the previous status is terminal. -/
theorem C1_no_transition_validation (db : DBState) (cache : Cache)
    (patch : PipelinePatch) (s : String)
    (hs : patch.Status = some s)
    (hex : ∃ r ∈ db.rows, r.ID = patch.ID) :
    (∃ row, (PatchPipeline envOK db cache patch).res = .ok row ∧
      row.Status = s)
    ∧ Event.sqlUpdate ∈ (PatchPipeline envOK db cache patch).trace
    ∧ ∀ r ∈ (PatchPipeline envOK db cache patch).db.rows,
        r.ID = patch.ID → r.Status = s := by
  rcases patchPipeline_found db patch hex with ⟨row, hrow, hrid, hmem⟩
  have hst : row.Status = s := patched_rows_status db patch s hs row hmem hrid
  have hrows := patchPipeline_rows db patch
  rcases hpp : patchPipeline db patch with ⟨e, d⟩
  rw [hpp] at hrow hrows
  simp only at hrow
  subst hrow
  have hP : PatchPipeline envOK db cache patch =
      { res := .ok row
        db := d
        cache := upsertCache cache row.ID row
        trace := [.beginTx, .sqlUpdate, .commit, .cacheUpsert row.ID,
          .rollback] } := by
    simp [PatchPipeline, envOK, hpp]
  rw [hP]
  refine ⟨⟨row, rfl, hst⟩, by simp, ?_⟩
  intro r hr hid
  dsimp only at hr
  have hd : d.rows = db.rows.map (patchRow patch) := by
    simpa using congrArg DBState.rows hrows
  rw [hd] at hr
  exact patched_rows_status db patch s hs r hr hid

/-- C1 (witness for the amended theorem): the DONE → OPEN patch on the
terminal pipeline succeeds with the requested status. -/
theorem C1_no_transition_validation_witness :
    ∃ row, (PatchPipeline envOK dbDone cacheEmpty patchReopen).res =
      .ok row ∧ row.Status = "OPEN" :=
  (C1_no_transition_validation dbDone cacheEmpty patchReopen "OPEN" rfl
    ⟨rowDone, by simp [dbDone], rfl⟩).1

/-- C2: in every execution of `CreatePipeline` and `PatchPipeline`,
under every fault environment and on every store/cache state, a cache
upsert event only ever occurs after the commit event of the trace; and
whenever the operation aborts before or at commit (no commit event in
the trace), the cache is left exactly as it was. -/
theorem C2_cache_write_after_commit (env : Env) (db : DBState)
    (cache : Cache) (create : PipelineCreate) (patch : PipelinePatch) :
    cacheUpsertOnlyAfterCommit
        (CreatePipeline env db cache create).trace = true
    ∧ (Event.commit ∉ (CreatePipeline env db cache create).trace →
        (CreatePipeline env db cache create).cache = cache)
    ∧ cacheUpsertOnlyAfterCommit
        (PatchPipeline env db cache patch).trace = true
    ∧ (Event.commit ∉ (PatchPipeline env db cache patch).trace →
        (PatchPipeline env db cache patch).cache = cache) := by
  rcases env with ⟨b, q, c, u, f⟩
  rcases hpp : patchPipeline db patch with ⟨e, d⟩
  cases b <;> cases q <;> cases c <;> cases u <;> cases e <;>
    simp [CreatePipeline, PatchPipeline, hpp, cacheUpsertOnlyAfterCommit,
      createPipeline]

/-- C2 (witness): when the commit round trip fails, the create
operation leaves the cache untouched. -/
theorem C2_cache_write_after_commit_witness :
    (CreatePipeline envNoCommit dbDone cacheEmpty createReq).cache =
      cacheEmpty :=
  (C2_cache_write_after_commit envNoCommit dbDone cacheEmpty createReq
    patchReopen).2.1 (by decide)

/-- C3: every fault-free `CreatePipeline` run inserts exactly one row,
whose `creator_id` and `updater_id` both equal the requester's
`CreatorID` and whose status is OPEN, and the row read back through the
RETURNING clause (the returned entity) is that row, with status OPEN. -/
theorem C3_create_open_status (db : DBState) (cache : Cache)
    (create : PipelineCreate) :
    ∃ row, (CreatePipeline envOK db cache create).res = .ok row ∧
      row.CreatorID = create.CreatorID ∧
      row.UpdaterID = create.CreatorID ∧
      row.Status = "OPEN" ∧
      (CreatePipeline envOK db cache create).db.rows = db.rows ++ [row] := by
  refine ⟨(createPipeline db create).1, ?_, rfl, rfl, rfl, ?_⟩ <;>
    simp [CreatePipeline, envOK, createPipeline]

/-- C4: when no stored row matches the patched id, `PatchPipeline`
fails with the `NotFound` error whose message names the entity kind and
the id, the cache is left untouched, and no cache upsert event is
issued on this path. -/
theorem C4_patch_missing_id (db : DBState) (cache : Cache)
    (patch : PipelinePatch) (h : ∀ r ∈ db.rows, r.ID ≠ patch.ID) :
    (PatchPipeline envOK db cache patch).res =
      .error (.notFound patch.ID)
    ∧ (PipelineError.notFound patch.ID).message =
        "pipeline ID not found: " ++ toString patch.ID
    ∧ (PatchPipeline envOK db cache patch).cache = cache
    ∧ ∀ i, Event.cacheUpsert i ∉
        (PatchPipeline envOK db cache patch).trace := by
  have he := patchPipeline_not_found db patch h
  rcases hpp : patchPipeline db patch with ⟨e, d⟩
  rw [hpp] at he
  dsimp only at he
  subst he
  refine ⟨?_, rfl, ?_, ?_⟩ <;>
    simp [PatchPipeline, envOK, hpp]

/-- C4 (witness): patching the absent id 42 yields the `NotFound`
error. -/
theorem C4_patch_missing_id_witness :
    (PatchPipeline envOK dbDone cacheEmpty patchMissing).res =
      .error (.notFound 42) :=
  (C4_patch_missing_id dbDone cacheEmpty patchMissing (by decide)).1

/-- The result-count contract of the store round trip shared by the
`FindPipeline` paths that reach the store. -/
lemma findPipelineStore_counts (db : DBState) (cache : Cache)
    (find : PipelineFind) (pre : List Event) :
    (findPipelineList db find = [] →
      (findPipelineStore envOK db cache find pre).res = .ok none)
    ∧ (∀ r, findPipelineList db find = [r] →
      (findPipelineStore envOK db cache find pre).res = .ok (some r))
    ∧ ((findPipelineList db find).length > 1 →
      (findPipelineStore envOK db cache find pre).res =
        .error (.conflict (findPipelineList db find).length 1 find)) := by
  refine ⟨?_, ?_, ?_⟩
  · intro h
    simp [findPipelineStore, envOK, h]
  · intro r h
    simp [findPipelineStore, envOK, h]
  · intro h
    rcases hl : findPipelineList db find with _ | ⟨a, t⟩
    · rw [hl] at h
      simp at h
    · rcases t with _ | ⟨b, t'⟩
      · rw [hl] at h
        simp at h
      · simp [findPipelineStore, envOK, hl]

/-- C5: every `FindPipeline` run that reaches the store (the id filter
is absent, or the cache misses on it) obeys the result-count contract:
zero matching rows yield `(nil, nil)`, a unique matching row is
returned, and more than one matching row yields the `Conflict` error
carrying the actual count and the expected cardinality 1. -/
theorem C5_find_result_count (db : DBState) (cache : Cache)
    (find : PipelineFind)
    (hmiss : find.ID = none ∨
      ∃ i, find.ID = some i ∧ findCache cache i = none) :
    (findPipelineList db find = [] →
      (FindPipeline envOK db cache find).res = .ok none)
    ∧ (∀ r, findPipelineList db find = [r] →
      (FindPipeline envOK db cache find).res = .ok (some r))
    ∧ ((findPipelineList db find).length > 1 →
      (FindPipeline envOK db cache find).res =
        .error (.conflict (findPipelineList db find).length 1 find)) := by
  rcases hmiss with h | ⟨i, hi, hc⟩
  · have hF : FindPipeline envOK db cache find =
        findPipelineStore envOK db cache find [] := by
      simp [FindPipeline, h]
    rw [hF]
    exact findPipelineStore_counts db cache find []
  · have hF : FindPipeline envOK db cache find =
        findPipelineStore envOK db cache find [.cacheFind i] := by
      simp [FindPipeline, hi, envOK, hc]
    rw [hF]
    exact findPipelineStore_counts db cache find [.cacheFind i]

/-- C5 (witness): a status-only filter matching two stored rows yields
the `Conflict` error with actual count 2 and expected cardinality 1. -/
theorem C5_find_result_count_witness :
    (FindPipeline envOK dbTwoOpen cacheEmpty findStatusOpen).res =
      .error (.conflict 2 1 findStatusOpen) :=
  (C5_find_result_count dbTwoOpen cacheEmpty findStatusOpen
    (Or.inl rfl)).2.2 (by decide)

/-- C6: whenever the find request carries an id and the cache holds a
snapshot under that id (and the cache probe round trip succeeds), the
cached snapshot is returned immediately: the trace is exactly the cache
probe, so no transaction is opened and the store state is untouched. -/
theorem C6_cache_hit_skips_store (env : Env) (db : DBState)
    (cache : Cache) (find : PipelineFind) (i : Int) (p : PipelineRaw)
    (hid : find.ID = some i) (hcok : env.findCacheOk = true)
    (hhit : findCache cache i = some p) :
    (FindPipeline env db cache find).res = .ok (some p)
    ∧ (FindPipeline env db cache find).trace = [.cacheFind i]
    ∧ Event.beginTx ∉ (FindPipeline env db cache find).trace
    ∧ (FindPipeline env db cache find).db = db
    ∧ (FindPipeline env db cache find).cache = cache := by
  simp [FindPipeline, hid, hcok, hhit]

/-- C6 (witness): a single-id lookup that hits the cache returns the
cached snapshot with a trace consisting of the cache probe only. -/
theorem C6_cache_hit_skips_store_witness :
    (FindPipeline envOK dbDone cacheDone findById).res =
      .ok (some rowDone) :=
  (C6_cache_hit_skips_store envOK dbDone cacheDone findById 1 rowDone
    rfl rfl rfl).1

/-- C9: on a cache hit for the requested id, the cached snapshot is
returned whatever the other filter fields say — the `Status` filter is
not evaluated on this path — and there are runs in which the returned
snapshot's status differs from the requested status filter. -/
theorem C9_cache_hit_ignores_filters :
    (∀ (env : Env) (db : DBState) (cache : Cache) (i : Int)
        (p : PipelineRaw) (s : Option String),
      env.findCacheOk = true → findCache cache i = some p →
      (FindPipeline env db cache { ID := some i, Status := s }).res =
        .ok (some p))
    ∧ ∃ (db : DBState) (cache : Cache) (i : Int) (p : PipelineRaw)
        (s : String),
      findCache cache i = some p ∧
      (FindPipeline envOK db cache
        { ID := some i, Status := some s }).res = .ok (some p) ∧
      p.Status ≠ s := by
  constructor
  · intro env db cache i p s hcok hhit
    simp [FindPipeline, hcok, hhit]
  · exact ⟨dbDone, cacheDone, 1, rowDone, "OPEN", rfl, rfl, by decide⟩

/-- C9 (witness): a lookup for id 1 with a `Status = OPEN` filter
returns the cached DONE snapshot. -/
theorem C9_cache_hit_ignores_filters_witness :
    (FindPipeline envOK dbDone cacheDone
      { ID := some 1, Status := some "OPEN" }).res = .ok (some rowDone) :=
  C9_cache_hit_ignores_filters.1 envOK dbDone cacheDone 1 rowDone
    (some "OPEN") rfl rfl

/-- C7: the UPDATE's SET list rewrites the matching stored row to
`applyPatchPipeline patch r`, which sets `updater_id` unconditionally,
sets `status` exactly when the optional `Status` field is non-nil, and
leaves `id`, `creator_id`, `created_ts` and `name` unchanged; when
`Status` is nil the whole row changes only in `updater_id` (so `status`
is unchanged too), and rows with a different id are kept verbatim. -/
theorem C7_patch_set_list (db : DBState) (patch : PipelinePatch)
    (r : PipelineRaw) (hr : r ∈ db.rows) (hid : r.ID = patch.ID) :
    applyPatchPipeline patch r ∈ (patchPipeline db patch).2.rows
    ∧ (applyPatchPipeline patch r).UpdaterID = patch.UpdaterID
    ∧ (∀ s, patch.Status = some s →
        (applyPatchPipeline patch r).Status = s)
    ∧ (applyPatchPipeline patch r).ID = r.ID
    ∧ (applyPatchPipeline patch r).CreatorID = r.CreatorID
    ∧ (applyPatchPipeline patch r).CreatedTs = r.CreatedTs
    ∧ (applyPatchPipeline patch r).Name = r.Name
    ∧ (patch.Status = none →
        applyPatchPipeline patch r = { r with UpdaterID := patch.UpdaterID })
    ∧ ∀ x ∈ db.rows, x.ID ≠ patch.ID →
        x ∈ (patchPipeline db patch).2.rows := by
  rw [patchPipeline_rows]
  refine ⟨?_, ?_, ?_, ?_, ?_, ?_, ?_, ?_, ?_⟩
  · have : patchRow patch r = applyPatchPipeline patch r := by
      unfold patchRow
      rw [if_pos hid]
    rw [← this]
    exact List.mem_map_of_mem (patchRow patch) hr
  · unfold applyPatchPipeline
    cases patch.Status <;> rfl
  · intro s hs
    exact applyPatchPipeline_status patch r s hs
  · exact applyPatchPipeline_ID patch r
  · unfold applyPatchPipeline
    cases patch.Status <;> rfl
  · unfold applyPatchPipeline
    cases patch.Status <;> rfl
  · unfold applyPatchPipeline
    cases patch.Status <;> rfl
  · intro hn
    unfold applyPatchPipeline
    rw [hn]
  · intro x hx hxid
    have : patchRow patch x = x := by
      unfold patchRow
      rw [if_neg hxid]
    rw [← this]
    exact List.mem_map_of_mem (patchRow patch) hx

/-- C7 (witness): a patch with nil `Status` on the stored DONE row
changes only `updater_id`. -/
theorem C7_patch_set_list_witness :
    applyPatchPipeline patchTouch rowDone =
      { rowDone with UpdaterID := 9 } :=
  (C7_patch_set_list dbDone patchTouch rowDone (by simp [dbDone])
    rfl).2.2.2.2.2.2.2.1 rfl

/-- C8: there are executions of `CreatePipeline` and of `PatchPipeline`
in which the transaction commits but the subsequent cache upsert fails:
the operation returns an error, yet the committed row is durably in the
store — exhibited concretely in the environment whose cache upsert
round trip fails.  An error return therefore does not imply that the
store is unchanged. -/
theorem C8_error_after_commit :
    ((CreatePipeline envNoUpsert dbDone cacheEmpty createReq).res =
        .error (.cacheError "upsert cache failed")
      ∧ (CreatePipeline envNoUpsert dbDone cacheEmpty createReq).db.rows =
          dbDone.rows ++ [(createPipeline dbDone createReq).1]
      ∧ Event.commit ∈
          (CreatePipeline envNoUpsert dbDone cacheEmpty createReq).trace)
    ∧ ((PatchPipeline envNoUpsert dbDone cacheEmpty patchReopen).res =
        .error (.cacheError "upsert cache failed")
      ∧ (PatchPipeline envNoUpsert dbDone cacheEmpty patchReopen).db.rows =
          [{ rowDone with UpdaterID := 101, Status := "OPEN" }]
      ∧ Event.commit ∈
          (PatchPipeline envNoUpsert dbDone cacheEmpty patchReopen).trace) := by
  refine ⟨⟨rfl, rfl, ?_⟩, ⟨rfl, rfl, ?_⟩⟩ <;> decide

/-- C10: `ToProjectMember` copies `ID`, the standard fields, `Role`,
`PrincipalID`, `RoleProvider` and `Payload` from the identically named
raw fields, but assigns the result's `ProjectID` from
`raw.PrincipalID`; consequently the conversion does not preserve the
`ProjectID` field (it differs whenever `ProjectID ≠ PrincipalID`). -/
theorem C10_to_project_member_projectID :
    (∀ raw : ProjectMemberRaw,
      raw.ToProjectMember.ID = raw.ID ∧
      raw.ToProjectMember.CreatorID = raw.CreatorID ∧
      raw.ToProjectMember.CreatedTs = raw.CreatedTs ∧
      raw.ToProjectMember.UpdaterID = raw.UpdaterID ∧
      raw.ToProjectMember.UpdatedTs = raw.UpdatedTs ∧
      raw.ToProjectMember.Role = raw.Role ∧
      raw.ToProjectMember.PrincipalID = raw.PrincipalID ∧
      raw.ToProjectMember.RoleProvider = raw.RoleProvider ∧
      raw.ToProjectMember.Payload = raw.Payload ∧
      raw.ToProjectMember.ProjectID = raw.PrincipalID)
    ∧ ∃ raw : ProjectMemberRaw,
        raw.ToProjectMember.ProjectID ≠ raw.ProjectID := by
  constructor
  · intro raw
    exact ⟨rfl, rfl, rfl, rfl, rfl, rfl, rfl, rfl, rfl, rfl⟩
  · exact ⟨{ ID := 1, CreatorID := 1, CreatedTs := 0, UpdaterID := 1,
             UpdatedTs := 0, ProjectID := 10, Role := "OWNER",
             PrincipalID := 20, RoleProvider := "BYTEBASE",
             Payload := "" }, by decide⟩

end Bytebase
